import Mathlib

/-!
Verification of the goreleaser source-archive pipe and the HTTP upload
subsystem (internal/pipe/sourcearchive/source.go and the internal/http
package).  Pure functions are shallowly embedded; external effects
(template resolution, git invocation, the network) are passed in as
oracle parameters.  The upload implementation itself is not part of the
source tree we were given (only its test suite is), so those definitions
are modelled from the specification and checked against the test suite's
expectations.
-/

namespace Goreleaser

/-- Artifact type tags, from the artifact package's closed enumeration
as exercised by the upload tests. -/
inductive ArtifactType where
  | binary
  | uploadableBinary
  | uploadableArchive
  | uploadableSourceArchive
  | linuxPackage
  | dockerImage
  | checksum
  | signature
  | certificate
  | metadata
deriving DecidableEq

/-- An artifact: display name, path, os/arch, type tag, and the extra
metadata fields the upload pipe consults (owning-group id, extension,
format). -/
structure Artifact where
  name : String
  path : String := ""
  goos : String := ""
  goarch : String := ""
  typ : ArtifactType
  extraId : String := ""
  extraExt : String := ""
  extraFormat : String := ""
deriving DecidableEq

/-- Environment snapshot: variable name to value. -/
def Env := List (String × String)

/-- Look a variable up in the environment snapshot. -/
def envLookup (env : Env) (key : String) : Option String :=
  match env with
  | [] => none
  | (k, v) :: rest => if k = key then some v else envLookup rest key

/-- Upload mode admitting archive-ish artifact types. -/
def ModeArchive : String := "archive"

/-- Upload mode admitting uploadable binaries only. -/
def ModeBinary : String := "binary"

/-- An upload target's configuration, with the zero values Go gives
unset fields. -/
structure Upload where
  name : String := ""
  target : String := ""
  username : String := ""
  mode : String := ""
  method : String := ""
  checksum : Bool := false
  signature : Bool := false
  meta : Bool := false
  exts : List String := []
  ids : List String := []
  trustedCerts : String := ""
  checksumHeader : String := ""
  customHeaders : List (String × String) := []
  extraFilesOnly : Bool := false
  clientX509Cert : String := ""
  clientX509Key : String := ""
  skip : String := ""
deriving DecidableEq

/-- Modelled from the spec: the upload implementation is absent from the
source tree, so mode-based admission follows spec 4.5 step 4:
mode=archive admits linux-package, uploadable-archive and
uploadable-source-archive; mode=binary admits uploadable-binary only. -/
def modeAdmits (mode : String) (t : ArtifactType) : Bool :=
  if mode = ModeArchive then
    t = .linuxPackage || t = .uploadableArchive || t = .uploadableSourceArchive
  else if mode = ModeBinary then
    t = .uploadableBinary
  else false

/-- Strip one leading dot from an extension, as the extension allow-list
match is dot-insensitive in the tests (".deb" matches allow-list entry
"deb"). -/
def stripDot (s : String) : String :=
  if s.startsWith "." then s.drop 1 else s

/-- Modelled from the spec: artifact-group allow-list filter (empty list
means no filter). -/
def idsAdmit (ids : List String) (a : Artifact) : Bool :=
  ids.isEmpty || ids.contains a.extraId

/-- Modelled from the spec: extension/format allow-list filter (empty
list means no filter); matches the recorded file extension (dot
stripped) or the recorded format string. -/
def extsAdmit (exts : List String) (a : Artifact) : Bool :=
  exts.isEmpty ||
    (exts.map stripDot).contains (stripDot a.extraExt) ||
    exts.contains a.extraFormat

/-- Modelled from the spec: which sidecar artifact types a target's
include-checksum, include-signature and include-metadata flags admit (signature brings both
signature and certificate artifacts, as the upload tests expect). -/
def sidecarAdmits (u : Upload) (t : ArtifactType) : Bool :=
  (u.checksum && t = .checksum) ||
    (u.signature && (t = .signature || t = .certificate)) ||
    (u.meta && t = .metadata)

/-- Whether a target admits an artifact: its type passes the mode
filter or a sidecar flag, and it passes the group and extension
allow-lists. -/
def admits (u : Upload) (a : Artifact) : Bool :=
  (modeAdmits u.mode a.typ || sidecarAdmits u a.typ) &&
    idsAdmit u.ids a && extsAdmit u.exts a

/-- Modelled from the spec: the candidate artifact sequence for one
upload target over the artifact registry (spec 4.5 step 4), corrected
against the test suite: sidecar artifacts are admitted by their type
alone, with no group-sharing requirement (TestManyUploads uploads a
checksum artifact from a registry holding no mode-admitted artifact at
all), and the allow-list filters apply to the one combined pass, which
preserves registry insertion order. -/
def candidates (u : Upload) (registry : List Artifact) : List Artifact :=
  registry.filter (admits u)

/-- A registry holding exactly one artifact of each defined type, all in
group "foo", in the insertion order of the upload test's setup. -/
def oneOfEach : List Artifact :=
  [ { name := "a", typ := .dockerImage, extraId := "foo" },
    { name := "a.deb", typ := .linuxPackage, extraId := "foo", extraExt := ".deb" },
    { name := "a.bin", typ := .binary, extraId := "foo", extraExt := ".bin" },
    { name := "a.tar", typ := .uploadableArchive, extraId := "foo", extraFormat := "tar" },
    { name := "a.tar.gz", typ := .uploadableSourceArchive, extraId := "foo", extraFormat := "tar.gz" },
    { name := "a.ubi", typ := .uploadableBinary, extraId := "foo", extraExt := ".ubi" },
    { name := "a.sum", typ := .checksum, extraId := "foo", extraExt := ".sum" },
    { name := "a.meta", typ := .metadata, extraId := "foo", extraExt := ".meta" },
    { name := "a.sig", typ := .signature, extraId := "foo", extraExt := ".sig" },
    { name := "a.pem", typ := .certificate, extraId := "foo", extraExt := ".pem" } ]

/-- The one-of-each registry extended with a sidecar whose group
identifier matches no selectable artifact. -/
def oneOfEachPlusForeign : List Artifact :=
  oneOfEach ++ [ { name := "other.sum", typ := .checksum, extraId := "bar", extraExt := ".sum" } ]

/-- An upload target with the given mode and all filters and flags at
their zero values. -/
def plainTarget (nm tgt user mode : String) : Upload :=
  { name := nm, target := tgt, username := user, mode := mode }

/-- An archive-mode target over group "foo" artifacts with the given
sidecar flags and no other filters. -/
def flaggedTarget (c s m : Bool) : Upload :=
  { name := "a", target := "http://h/v/", username := "u3", mode := ModeArchive,
    checksum := c, signature := s, meta := m }

def rotr32 (n x : Nat) : Nat :=
  ((x >>> n) ||| (x <<< (32 - n))) % 2 ^ 32

def bigS0 (x : Nat) : Nat := rotr32 2 x ^^^ rotr32 13 x ^^^ rotr32 22 x
def bigS1 (x : Nat) : Nat := rotr32 6 x ^^^ rotr32 11 x ^^^ rotr32 25 x
def smlS0 (x : Nat) : Nat := rotr32 7 x ^^^ rotr32 18 x ^^^ (x >>> 3)
def smlS1 (x : Nat) : Nat := rotr32 17 x ^^^ rotr32 19 x ^^^ (x >>> 10)

def sha256K : List Nat :=
  [1116352408, 1899447441, 3049323471, 3921009573, 961987163,
   1508970993, 2453635748, 2870763221, 3624381080, 310598401,
   607225278, 1426881987, 1925078388, 2162078206, 2614888103,
   3248222580, 3835390401, 4022224774, 264347078, 604807628,
   770255983, 1249150122, 1555081692, 1996064986, 2554220882,
   2821834349, 2952996808, 3210313671, 3336571891, 3584528711,
   113926993, 338241895, 666307205, 773529912, 1294757372,
   1396182291, 1695183700, 1986661051, 2177026350, 2456956037,
   2730485921, 2820302411, 3259730800, 3345764771, 3516065817,
   3600352804, 4094571909, 275423344, 430227734, 506948616,
   659060556, 883997877, 958139571, 1322822218, 1537002063,
   1747873779, 1955562222, 2024104815, 2227730452, 2361852424,
   2428436474, 2756734187, 3204031479, 3329325298]

def sha256H0 : List Nat :=
  [1779033703, 3144134277, 1013904242, 2773480762, 1359893119,
   2600822924, 528734635, 1541459225]

def bytesBE8 (n : Nat) : List Nat :=
  [(n >>> 56) % 256, (n >>> 48) % 256, (n >>> 40) % 256, (n >>> 32) % 256,
   (n >>> 24) % 256, (n >>> 16) % 256, (n >>> 8) % 256, n % 256]

def sha256Pad (msg : List Nat) : List Nat :=
  let l := msg.length
  let zeros := (119 - l % 64) % 64
  msg ++ [0x80] ++ List.replicate zeros 0 ++ bytesBE8 (8 * l)

def toWordsBE : List Nat → List Nat
  | b0 :: b1 :: b2 :: b3 :: rest =>
      (((b0 * 256 + b1) * 256 + b2) * 256 + b3) :: toWordsBE rest
  | _ => []

def schedule (w16 : List Nat) : List Nat :=
  (List.range 48).foldl
    (fun w _ =>
      let n := w.length
      w ++ [(smlS1 (w.getD (n - 2) 0) + w.getD (n - 7) 0 +
             smlS0 (w.getD (n - 15) 0) + w.getD (n - 16) 0) % 2 ^ 32])
    w16

def compressRound (st : List Nat) (wk : Nat × Nat) : List Nat :=
  let a := st.getD 0 0
  let b := st.getD 1 0
  let c := st.getD 2 0
  let d := st.getD 3 0
  let e := st.getD 4 0
  let f := st.getD 5 0
  let g := st.getD 6 0
  let h := st.getD 7 0
  let ch := (e &&& f) ^^^ ((2 ^ 32 - 1 - e) &&& g)
  let maj := (a &&& b) ^^^ (a &&& c) ^^^ (b &&& c)
  let t1 := (h + bigS1 e + ch + wk.2 + wk.1) % 2 ^ 32
  let t2 := (bigS0 a + maj) % 2 ^ 32
  [(t1 + t2) % 2 ^ 32, a, b, c, (d + t1) % 2 ^ 32, e, f, g]

def compressBlock (h : List Nat) (block : List Nat) : List Nat :=
  let w := schedule (toWordsBE block)
  let st := (w.zip sha256K).foldl compressRound h
  (h.zip st).map fun p => (p.1 + p.2) % 2 ^ 32

def sha256Blocks (fuel : Nat) (h : List Nat) (bs : List Nat) : List Nat :=
  match fuel, bs with
  | _, [] => h
  | 0, _ => h
  | fuel + 1, bs => sha256Blocks fuel (compressBlock h (bs.take 64)) (bs.drop 64)

def sha256Words (msg : List Nat) : List Nat :=
  let padded := sha256Pad msg
  sha256Blocks padded.length sha256H0 padded

def hexChar (n : Nat) : Char :=
  if n < 10 then Char.ofNat (48 + n) else Char.ofNat (87 + n)

def wordHex (w : Nat) : List Char :=
  [hexChar ((w >>> 28) % 16), hexChar ((w >>> 24) % 16), hexChar ((w >>> 20) % 16),
   hexChar ((w >>> 16) % 16), hexChar ((w >>> 12) % 16), hexChar ((w >>> 8) % 16),
   hexChar ((w >>> 4) % 16), hexChar (w % 16)]

def sha256Hex (msg : List Nat) : String :=
  ⟨(sha256Words msg).flatMap wordHex⟩

/-- Go's strings.HasSuffix. -/
def goHasSuffix (s suf : String) : Bool :=
  decide (suf.data <:+ s.data)

/-- Modelled from the spec: destination-path construction (spec 4.5 step
5) appends the artifact's base name to the resolved URL template with
exactly one path separator between them. -/
def buildDest (resolvedTarget nm : String) : String :=
  (if goHasSuffix resolvedTarget "/" then resolvedTarget else resolvedTarget ++ "/") ++ nm

/-- ASCII uppercasing of one character, as strings.ToUpper does for the
ASCII names and kinds involved here. -/
def charUpper (c : Char) : Char :=
  if 'a' ≤ c ∧ c ≤ 'z' then Char.ofNat (c.toNat - 32) else c

/-- Go's strings.ToUpper over the ASCII configuration strings. -/
def goToUpper (s : String) : String :=
  ⟨s.data.map charUpper⟩

/-- Environment key for an upload target's username:
KIND_NAME_USERNAME, uppercased. -/
def usernameEnvKey (kind nm : String) : String :=
  goToUpper (kind ++ "_" ++ nm ++ "_USERNAME")

/-- Environment key for an upload target's secret: KIND_NAME_SECRET,
uppercased. -/
def secretEnvKey (kind nm : String) : String :=
  goToUpper (kind ++ "_" ++ nm ++ "_SECRET")

/-- Modelled from the spec: username resolution (spec 4.5 step 3); the
explicit configuration value takes precedence, otherwise the
KIND_NAME_USERNAME environment variable, otherwise empty. -/
def resolveUsername (env : Env) (kind : String) (u : Upload) : String :=
  if u.username ≠ "" then u.username
  else (envLookup env (usernameEnvKey kind u.name)).getD ""

/-- Modelled from the spec: the secret always comes from the
environment, never from configuration. -/
def envSecret (env : Env) (kind : String) (u : Upload) : Option String :=
  envLookup env (secretEnvKey kind u.name)

/-- An issued HTTP request, as observed by the test double. -/
structure Request where
  url : String
  method : String
  headers : List (String × String)
  auth : Option (String × String)
  body : List Nat
deriving DecidableEq

/-- Modelled from the spec: request construction (spec 4.5 steps 5 and
7).  The body comes from the opened asset; the checksum header, when
configured, carries the SHA-256 of the artifact's file content (the
test suite fixes this: TestUpload/checksumheader uploads a stubbed body
"blah!" yet expects the hash of the on-disk content "lorem ipsum", so
the hash is over the artifact's file, not over the transmitted body).
Basic authentication is attached exactly when a username was
resolved. -/
def buildRequest (env : Env) (kind : String) (u : Upload) (resolvedTarget : String)
    (a : Artifact) (body fileContent : List Nat)
    (resolvedHeaders : List (String × String)) : Request :=
  { url := buildDest resolvedTarget a.name
  , method := if u.method = "" then "PUT" else u.method
  , headers := resolvedHeaders ++
      (if u.checksumHeader ≠ "" then [(u.checksumHeader, sha256Hex fileContent)] else [])
  , auth :=
      let user := resolveUsername env kind u
      if user ≠ "" then some (user, (envSecret env kind u).getD "") else none
  , body := body }

/-- Modelled from the spec: a trusted-CA bundle parses when it is absent
or contains a PEM certificate block. -/
def pemOk (s : String) : Bool :=
  s = "" || decide ("-----BEGIN CERTIFICATE-----".data <:+: s.data)

/-- Modelled from the spec: configuration validation for one upload
target (spec 4.5 step 2): name, target and a mode in archive or binary
are mandatory, the trusted-CA bundle must parse, and a resolved username
demands a matching environment secret (and, as TestCheckConfig also
requires, a present secret demands a username). -/
def CheckConfig (env : Env) (u : Upload) (kind : String) : Except String Unit :=
  if u.name = "" then .error "name is required"
  else if u.target = "" then .error "target is required"
  else if u.mode ≠ ModeArchive ∧ u.mode ≠ ModeBinary then .error "mode is invalid"
  else if pemOk u.trustedCerts = false then .error "no certs found"
  else
    let user := resolveUsername env kind u
    match envSecret env kind u with
    | none => if user ≠ "" then .error "missing secret" else .ok ()
    | some _ => if user = "" then .error "username is required" else .ok ()

/-- Modelled from the spec: the upload Defaults fill an unset mode with
archive, as TestDefaults requires. -/
def uploadDefault (u : Upload) : Upload :=
  if u.mode = "" then { u with mode := ModeArchive } else u

/-- Modelled from the spec: Defaults over the configured targets. -/
def uploadDefaults (us : List Upload) : List Upload :=
  us.map uploadDefault

/-- The pipeline's error values: fatal failures and the distinguished
non-fatal skip classification. -/
inductive PipeErr where
  | fatal (msg : String)
  | skip (msg : String)
deriving DecidableEq

/-- The dedicated skip-classification predicate (pipe.IsSkip). -/
def PipeErr.isSkip : PipeErr → Bool
  | .fatal _ => false
  | .skip _ => true

/-- Outcome of processing one upload target. -/
inductive TargetResult where
  | skipped
  | done (reqs : List Request)
  | failed (msg : String)
deriving DecidableEq

/-- The requests a target's outcome transferred. -/
def TargetResult.requests : TargetResult → List Request
  | .done rs => rs
  | _ => []

/-- Whether a target's outcome is a fatal failure. -/
def TargetResult.isFailed : TargetResult → Bool
  | .failed _ => true
  | _ => false

/-- Whether a target's outcome is the intentional skip. -/
def TargetResult.isSkipped : TargetResult → Bool
  | .skipped => true
  | _ => false

/-- Modelled from the spec: processing of one upload target (spec 4.5):
evaluate the skip predicate (empty means false); resolve the destination
template per artifact; build one request per candidate artifact; any
failed transfer fails the target. -/
def processTarget (evalBool : String → Except String Bool)
    (resolveTmpl : String → Artifact → Except String String)
    (respOk : Request → Bool) (env : Env) (kind : String)
    (registry : List Artifact) (bodyOf fileOf : Artifact → List Nat)
    (u : Upload) : TargetResult :=
  match (if u.skip = "" then Except.ok false else evalBool u.skip) with
  | .error e => .failed e
  | .ok true => .skipped
  | .ok false =>
    match (candidates u registry).mapM (fun a => do
        let tgt ← resolveTmpl u.target a
        pure (buildRequest env kind u tgt a (bodyOf a) (fileOf a) [])) with
    | .error e => .failed e
    | .ok reqs => if reqs.all respOk then .done reqs else .failed "upload failed"

/-- Modelled from the spec: the stage-level call over all configured
targets (spec 4.5, stage-level aggregation): every target is processed;
the recorded requests of non-skipped targets accumulate; at least one
fatal failure fails the stage, otherwise at least one skipped target
yields the aggregate skip classification. -/
def uploadStage (evalBool : String → Except String Bool)
    (resolveTmpl : String → Artifact → Except String String)
    (respOk : Request → Bool) (env : Env) (kind : String)
    (registry : List Artifact) (bodyOf fileOf : Artifact → List Nat)
    (uploads : List Upload) : List Request × Option PipeErr :=
  let results := uploads.map
    (processTarget evalBool resolveTmpl respOk env kind registry bodyOf fileOf)
  (results.flatMap TargetResult.requests,
   if results.any TargetResult.isFailed then some (.fatal "upload failed")
   else if results.any TargetResult.isSkipped then some (.skip "some uploads were skipped")
   else none)

/-- Source-archive configuration, with Go zero values for unset
fields. -/
structure SourceConfig where
  enabled : Bool := false
  format : String := ""
  nameTemplate : String := ""
  prefixTemplate : String := ""
  files : List String := []
deriving DecidableEq

/-- The slice of the release context the source-archive pipe touches. -/
structure GCtx where
  source : SourceConfig := {}
  dist : String := "dist"
  fullCommit : String := ""
  artifacts : List Artifact := []
deriving DecidableEq

/-- Pipe.Skip of the source-archive pipe: skip exactly when
Source.Enabled is false (source.go:27). -/
def sourcePipeSkip (ctx : GCtx) : Bool :=
  !ctx.source.enabled

/-- Pipe.Default of the source-archive pipe (source.go:127): fill an
empty format with tar.gz and an empty name template with the
project-version template. -/
def sourceDefault (ctx : GCtx) : GCtx :=
  let a := ctx.source
  let a := if a.format = "" then { a with format := "tar.gz" } else a
  let a := if a.nameTemplate = "" then
      { a with nameTemplate := "\x7b\x7b .ProjectName \x7d\x7d-\x7b\x7b .Version \x7d\x7d" }
    else a
  { ctx with source := a }

/-- Pipe.Run of the source-archive pipe (source.go:32), with template
resolution, the git invocation and the extra-files append phase passed
in as oracles: reject any format outside the four recognized values
before anything else, resolve the archive name, run git archive, append
extra files when configured, and register the uploadable source
archive. -/
def sourceRun (tmplApply : String → Except String String)
    (gitClean : List String → Except String Unit)
    (appendExtra : Except String Unit) (ctx : GCtx) : Except String GCtx :=
  let format := ctx.source.format
  if format ≠ "zip" ∧ format ≠ "tar" ∧ format ≠ "tgz" ∧ format ≠ "tar.gz" then
    .error ("invalid source archive format: " ++ format)
  else
    match tmplApply ctx.source.nameTemplate with
    | .error e => .error e
    | .ok nm =>
      let filename := nm ++ "." ++ format
      let path := ctx.dist ++ "/" ++ filename
      let args0 := ["archive", "-o", path]
      match (if ctx.source.prefixTemplate ≠ "" then
          (tmplApply ctx.source.prefixTemplate).map
            (fun pt => args0 ++ ["--prefix", pt])
        else .ok args0) with
      | .error e => .error e
      | .ok args =>
        match gitClean (args ++ [ctx.fullCommit]) with
        | .error e => .error e
        | .ok () =>
          match (if ctx.source.files.length > 0 then appendExtra else .ok ()) with
          | .error e => .error e
          | .ok () =>
            .ok { ctx with artifacts := ctx.artifacts ++
              [{ typ := .uploadableSourceArchive, name := filename, path := path,
                 extraFormat := format }] }

/-- Modelled from the spec: one step of the pipeline runner (spec 4.1):
when the stage's skip evaluates true the runner proceeds without calling
Default or Run; the returned flag records whether Run was invoked. -/
def runStep (skipF : GCtx → Bool) (defaultF : GCtx → Except String GCtx)
    (runF : GCtx → Except String GCtx) (ctx : GCtx) :
    GCtx × Bool × Option String :=
  if skipF ctx then (ctx, false, none)
  else
    match defaultF ctx with
    | .error e => (ctx, false, some e)
    | .ok ctx1 =>
      match runF ctx1 with
      | .error e => (ctx1, true, some e)
      | .ok ctx2 => (ctx2, true, none)

/-- The TestManyUploads target: archive mode with the checksum flag. -/
def realTarget : Upload :=
  { name := "real", mode := ModeArchive, checksum := true, target := "http://srv" }

/-- The TestManyUploads registry: a lone checksum artifact. -/
def loneChecksum : List Artifact :=
  [{ name := "checksums.txt", path := "doesnt-matter", typ := .checksum }]

/-- A disabled-prefix context with an unrecognized format. -/
def rarCtx : GCtx :=
  { source := { enabled := true, format := "rar", nameTemplate := "t" } }

/-- The same context with the tar.gz format. -/
def tgzCtx : GCtx :=
  { source := { enabled := true, format := "tar.gz", nameTemplate := "t" } }

/-- The tar.gz context after Run registered the source archive. -/
def tgzCtxDone : GCtx :=
  { source := { enabled := true, format := "tar.gz", nameTemplate := "t" },
    artifacts := [{ typ := .uploadableSourceArchive,
                    name := "blah-2.1.0.tar.gz",
                    path := "dist/blah-2.1.0.tar.gz",
                    extraFormat := "tar.gz" }] }


/-- Boolean template evaluation as TestManyUploads exercises it: the
literal true and the FOO comparison both come out true. -/
def manyEvalBool : String → Except String Bool := fun s =>
  if s = "true" then .ok true
  else if s = "\x7b\x7b eq .Env.FOO \"1\" \x7d\x7d" then .ok true
  else .error "invalid template"

/-- Template resolution for a target URL with no placeholders. -/
def manyResolve : String → Artifact → Except String String := fun t _ => .ok t

/-- The TestManyUploads configuration: two skipped targets around one
real archive-mode target. -/
def manyUploads : List Upload :=
  [ { name := "skip1", skip := "true" },
    realTarget,
    { name := "skip1", skip := "\x7b\x7b eq .Env.FOO \"1\" \x7d\x7d" } ]


/-- The bytes of the stubbed upload payload blah! in the checksum-header
test. -/
def blahBytes : List Nat := [98, 108, 97, 104, 33]

/-- The bytes of lorem ipsum, the on-disk content of every artifact file
in the upload test. -/
def loremBytes : List Nat := [108, 111, 114, 101, 109, 32, 105, 112, 115, 117, 109]

/-- The checksumheader test's upload target. -/
def chkTarget : Upload :=
  { name := "a", target := "http://h/v/", username := "u2", mode := ModeBinary,
    checksumHeader := "-x-sha256" }

/-- The uploadable binary artifact of the upload test. -/
def ubiArtifact : Artifact :=
  { name := "a.ubi", typ := .uploadableBinary, extraId := "foo", extraExt := ".ubi" }

/-- The request the checksumheader test observes: stubbed body blah!,
artifact file content lorem ipsum. -/
def chkRequest : Request :=
  buildRequest [("TEST_A_SECRET", "x"), ("TEST_A_USERNAME", "u2")] "test"
    chkTarget "http://h/v/" ubiArtifact blahBytes loremBytes []


/-- C1: over a registry with one artifact of each defined type, a target
with no allow-lists and no sidecar flags selects exactly the
linux-package, uploadable-archive and uploadable-source-archive
artifacts in archive mode and exactly the uploadable-binary artifact in
binary mode; no other artifact type is included. -/
theorem upload_candidates_by_mode (nm tgt user : String) :
    ((candidates (plainTarget nm tgt user ModeArchive) oneOfEach).map (fun a => a.typ) =
      [.linuxPackage, .uploadableArchive, .uploadableSourceArchive]) ∧
    ((candidates (plainTarget nm tgt user ModeBinary) oneOfEach).map (fun a => a.typ) =
      [.uploadableBinary]) :=
  ⟨rfl, rfl⟩

/-- C9 counterexample: a checksum sidecar is admitted even when no
already-selected artifact shares its group identifier — indeed even when
the candidate set contains no mode-admitted artifact at all, as in
TestManyUploads. -/
theorem sidecar_no_group_requirement :
    ¬ (∀ a ∈ candidates realTarget loneChecksum,
        sidecarAdmits realTarget a.typ = true →
        ∃ b ∈ candidates realTarget loneChecksum,
          modeAdmits ModeArchive b.typ = true ∧ b.extraId = a.extraId) := by
  decide

/-- C9 (amended): with the include-checksum, include-signature and
include-metadata flags, the candidate set over the one-of-each registry
(extended with a checksum in an unrelated group) additionally contains
exactly the checksum artifacts when the checksum flag is set, the
metadata artifact when the metadata flag is set, and the signature and
certificate artifacts when the signature flag is set — by type alone,
regardless of group identifier; with all flags false no sidecar artifact
is selected. -/
theorem sidecar_flags_admit_by_type : ∀ c s m : Bool,
    (candidates (flaggedTarget c s m) oneOfEachPlusForeign).map (fun a => a.typ) =
      [.linuxPackage, .uploadableArchive, .uploadableSourceArchive] ++
        ((if c then [.checksum] else []) ++ (if m then [.metadata] else []) ++
         (if s then [.signature, .certificate] else []) ++
         (if c then [.checksum] else [])) := by
  decide

/-- C5: the destination path is the resolved URL template and the
artifact's base name joined by exactly one separator, whether or not the
template already ends in one. -/
theorem destination_single_separator (t nm : String)
    (h : goHasSuffix t "/" = false) :
    buildDest t nm = t ++ "/" ++ nm ∧ buildDest (t ++ "/") nm = t ++ "/" ++ nm := by
  constructor
  · simp [buildDest, h]
  · have hs : goHasSuffix (t ++ "/") "/" = true := by
      simp [goHasSuffix, String.data_append]
    simp [buildDest, hs]

/-- Witness for the single-separator property at the binary-add-ending-bar
test's shape. -/
theorem destination_single_separator_witness :
    buildDest "http://h/v" "a.ubi" = "http://h/v/a.ubi" ∧
      buildDest ("http://h/v" ++ "/") "a.ubi" = "http://h/v/a.ubi" := by
  have h := destination_single_separator "http://h/v" "a.ubi" (by decide)
  exact ⟨h.1, h.2⟩


/-- C10: the source-archive pipe is skipped exactly when Source.Enabled
is false, and a skipped stage's step leaves the context untouched
without invoking Run, so no artifact is registered. -/
theorem source_skip_iff_disabled (ctx : GCtx)
    (dflt runF : GCtx → Except String GCtx) :
    (sourcePipeSkip ctx = true ↔ ctx.source.enabled = false) ∧
    (ctx.source.enabled = false →
      runStep sourcePipeSkip dflt runF ctx = (ctx, false, none)) := by
  constructor
  · simp [sourcePipeSkip]
  · intro h
    simp [runStep, sourcePipeSkip, h]

/-- Witness for the skip property on a disabled-source context. -/
theorem source_skip_iff_disabled_witness :
    runStep sourcePipeSkip Except.ok Except.ok { source := {} } =
      ({ source := {} }, false, none) :=
  (source_skip_iff_disabled { source := {} } Except.ok Except.ok).2 rfl

/-- C6: applying defaults twice equals applying them once, and defaults
fill only unset fields: the source-archive Default keeps a non-empty
format and name template and fills empty ones with tar.gz and the
project-version template; the upload Defaults keep a non-empty mode (in
particular an explicit binary mode) and fill an empty one with
archive. -/
theorem defaults_idempotent_fill_only_unset :
    (∀ ctx : GCtx,
      sourceDefault (sourceDefault ctx) = sourceDefault ctx ∧
      (ctx.source.format ≠ "" →
        (sourceDefault ctx).source.format = ctx.source.format) ∧
      (ctx.source.nameTemplate ≠ "" →
        (sourceDefault ctx).source.nameTemplate = ctx.source.nameTemplate) ∧
      (ctx.source.format = "" → (sourceDefault ctx).source.format = "tar.gz") ∧
      (ctx.source.nameTemplate = "" →
        (sourceDefault ctx).source.nameTemplate =
          "\x7b\x7b .ProjectName \x7d\x7d-\x7b\x7b .Version \x7d\x7d")) ∧
    (∀ us : List Upload, uploadDefaults (uploadDefaults us) = uploadDefaults us) ∧
    (∀ u : Upload,
      (u.mode ≠ "" → uploadDefault u = u) ∧
      (u.mode = "" → (uploadDefault u).mode = ModeArchive)) := by
  refine ⟨fun ctx => ?_, fun us => ?_, fun u => ?_⟩
  · by_cases hf : ctx.source.format = "" <;>
      by_cases hn : ctx.source.nameTemplate = "" <;>
      simp [sourceDefault, hf, hn]
  · induction us with
    | nil => rfl
    | cons u us ih =>
      simp only [uploadDefaults, List.map_cons] at ih ⊢
      rw [ih]
      by_cases hm : u.mode = "" <;> simp [uploadDefault, hm, ModeArchive]
  · constructor
    · intro h; simp [uploadDefault, h]
    · intro h; simp [uploadDefault, h]

/-- Witness for the defaults property: a set format and binary mode are
kept, empty ones are filled. -/
theorem defaults_idempotent_fill_only_unset_witness :
    (sourceDefault { source := { format := "zip" } }).source.format = "zip" ∧
    uploadDefault { name := "a", target := "http://...", mode := ModeBinary } =
      { name := "a", target := "http://...", mode := ModeBinary } ∧
    (uploadDefault { name := "a", target := "http://" }).mode = ModeArchive := by
  refine ⟨?_, ?_, ?_⟩
  · exact (defaults_idempotent_fill_only_unset.1
      { source := { format := "zip" } }).2.1 (by decide)
  · exact ((defaults_idempotent_fill_only_unset.2.2
      { name := "a", target := "http://...", mode := ModeBinary }).1 (by decide))
  · exact ((defaults_idempotent_fill_only_unset.2.2
      { name := "a", target := "http://" }).2 rfl)

/-- C8: username resolution prefers the explicit configuration value and
falls back to the KIND_NAME_USERNAME environment variable; a resolved
username is attached, with the environment secret, as basic
authentication on the built request, and an empty resolution leaves the
request unauthenticated. -/
theorem username_resolution_and_auth (env : Env) (kind : String) (u : Upload)
    (tgt : String) (a : Artifact) (body fileContent : List Nat)
    (hs : List (String × String)) :
    (u.username ≠ "" → resolveUsername env kind u = u.username) ∧
    (u.username = "" → resolveUsername env kind u =
      (envLookup env (usernameEnvKey kind u.name)).getD "") ∧
    (resolveUsername env kind u ≠ "" →
      (buildRequest env kind u tgt a body fileContent hs).auth =
        some (resolveUsername env kind u, (envSecret env kind u).getD "")) ∧
    (resolveUsername env kind u = "" →
      (buildRequest env kind u tgt a body fileContent hs).auth = none) := by
  refine ⟨fun h => ?_, fun h => ?_, fun h => ?_, fun h => ?_⟩
  · simp [resolveUsername, h]
  · simp [resolveUsername, h]
  · simp [buildRequest, h]
  · simp [buildRequest, h]

/-- Witness for username resolution at the username-from-env test's
environment: no explicit username, so the request authenticates with the
environment pair u2/x. -/
theorem username_resolution_and_auth_witness :
    (buildRequest [("TEST_A_USERNAME", "u2"), ("TEST_A_SECRET", "x")] "test"
        (plainTarget "a" "t" "" ModeArchive) "http://h/v/"
        { name := "a.deb", typ := .linuxPackage } [98] [98] []).auth =
      some ("u2", "x") := by
  have h := (username_resolution_and_auth
    [("TEST_A_USERNAME", "u2"), ("TEST_A_SECRET", "x")] "test"
    (plainTarget "a" "t" "" ModeArchive) "http://h/v/"
    { name := "a.deb", typ := .linuxPackage } [98] [98] []).2.2.1 (by decide)
  rw [h]
  decide


/-- C3: validation of an upload target requires name, destination and a
mode in archive or binary; an unparseable trusted-CA bundle is rejected;
a non-empty configured username without a matching KIND_NAME_SECRET in
the environment fails, while the same configuration without the username
passes. -/
theorem checkconfig_required_fields (env : Env) (u : Upload) (kind : String) :
    (CheckConfig env u kind = .ok () →
      u.name ≠ "" ∧ u.target ≠ "" ∧ (u.mode = ModeArchive ∨ u.mode = ModeBinary)) ∧
    (pemOk u.trustedCerts = false → CheckConfig env u kind ≠ .ok ()) ∧
    (u.username ≠ "" → envSecret env kind u = none →
      CheckConfig env u kind ≠ .ok ()) ∧
    (u.name ≠ "" → u.target ≠ "" → (u.mode = ModeArchive ∨ u.mode = ModeBinary) →
      pemOk u.trustedCerts = true → envSecret env kind u = none →
      envLookup env (usernameEnvKey kind u.name) = none →
      CheckConfig env { u with username := "" } kind = .ok ()) := by
  refine ⟨fun hok => ?_, fun hpem => ?_, fun huser hsec => ?_,
    fun hn ht hm hpem hsec henv => ?_⟩
  · by_cases hn : u.name = ""
    · simp [CheckConfig, hn] at hok
    · by_cases ht : u.target = ""
      · simp [CheckConfig, hn, ht] at hok
      · by_cases hm : u.mode ≠ ModeArchive ∧ u.mode ≠ ModeBinary
        · simp [CheckConfig, hn, ht, hm] at hok
        · exact ⟨hn, ht, by tauto⟩
  · by_cases hn : u.name = ""
    · simp [CheckConfig, hn]
    · by_cases ht : u.target = ""
      · simp [CheckConfig, hn, ht]
      · by_cases hm : u.mode ≠ ModeArchive ∧ u.mode ≠ ModeBinary
        · simp [CheckConfig, hn, ht, hm]
        · simp [CheckConfig, hn, ht, hm, hpem]
  · by_cases hn : u.name = ""
    · simp [CheckConfig, hn]
    · by_cases ht : u.target = ""
      · simp [CheckConfig, hn, ht]
      · by_cases hm : u.mode ≠ ModeArchive ∧ u.mode ≠ ModeBinary
        · simp [CheckConfig, hn, ht, hm]
        · by_cases hpem : pemOk u.trustedCerts = false
          · simp [CheckConfig, hn, ht, hm, hpem]
          · have hru : resolveUsername env kind u ≠ "" := by
              simp [resolveUsername, huser]
            simp [CheckConfig, hn, ht, hm, hpem, hsec, hru]
  · have hm' : ¬ (u.mode ≠ ModeArchive ∧ u.mode ≠ ModeBinary) := by tauto
    have hru : resolveUsername env kind { u with username := "" } = "" := by
      simp [resolveUsername, henv]
    have hsec' : envSecret env kind { u with username := "" } = none := hsec
    simp [CheckConfig, hn, ht, hm', hpem, hsec', hru]

/-- Witness for validation: the username/secret clause fails on an empty
environment with a configured username, and the same target without the
username validates. -/
theorem checkconfig_required_fields_witness :
    CheckConfig [] (plainTarget "a" "http://blabla" "pepe" ModeArchive)
      "test" ≠ .ok () ∧
    CheckConfig [] (plainTarget "a" "http://blabla" "" ModeArchive) "test" =
      .ok () := by
  constructor
  · exact (checkconfig_required_fields []
      (plainTarget "a" "http://blabla" "pepe" ModeArchive) "test").2.2.1
      (by decide) (by decide)
  · exact (checkconfig_required_fields []
      (plainTarget "a" "http://blabla" "" ModeArchive) "test").2.2.2
      (by decide) (by decide) (Or.inl rfl) (by decide) (by decide) (by decide)


/-- C7: the source-archive Run rejects every format outside zip, tar,
tgz and tar.gz with the invalid-format error regardless of the template,
git and append collaborators — so before any of them acts — and for a
format inside the set (here with no extra files and no prefix template)
produces and registers the artifact named name.format. -/
theorem source_run_format_gate (tmplApply : String → Except String String)
    (gitClean : List String → Except String Unit) (appendExtra : Except String Unit)
    (ctx : GCtx) :
    (¬ (ctx.source.format = "zip" ∨ ctx.source.format = "tar" ∨
        ctx.source.format = "tgz" ∨ ctx.source.format = "tar.gz") →
      sourceRun tmplApply gitClean appendExtra ctx =
        .error ("invalid source archive format: " ++ ctx.source.format)) ∧
    (∀ nm : String,
      (ctx.source.format = "zip" ∨ ctx.source.format = "tar" ∨
        ctx.source.format = "tgz" ∨ ctx.source.format = "tar.gz") →
      tmplApply ctx.source.nameTemplate = .ok nm →
      ctx.source.prefixTemplate = "" →
      ctx.source.files = [] →
      gitClean ["archive", "-o",
          ctx.dist ++ "/" ++ (nm ++ "." ++ ctx.source.format),
          ctx.fullCommit] = .ok () →
      sourceRun tmplApply gitClean appendExtra ctx =
        .ok { ctx with artifacts := ctx.artifacts ++
          [{ typ := .uploadableSourceArchive,
             name := nm ++ "." ++ ctx.source.format,
             path := ctx.dist ++ "/" ++ (nm ++ "." ++ ctx.source.format),
             extraFormat := ctx.source.format }] }) := by
  constructor
  · intro h
    have h' : ctx.source.format ≠ "zip" ∧ ctx.source.format ≠ "tar" ∧
        ctx.source.format ≠ "tgz" ∧ ctx.source.format ≠ "tar.gz" := by tauto
    simp [sourceRun, h']
  · intro nm hfmt htm hpref hfiles hgit
    have h' : ¬ (ctx.source.format ≠ "zip" ∧ ctx.source.format ≠ "tar" ∧
        ctx.source.format ≠ "tgz" ∧ ctx.source.format ≠ "tar.gz") := by tauto
    simp [sourceRun, h', htm, hpref, hfiles, hgit]

/-- Witness for the format gate: format rar is rejected, format tar.gz
goes through and registers blah-2.1.0.tar.gz. -/
theorem source_run_format_gate_witness :
    sourceRun (fun _ => .ok "blah-2.1.0") (fun _ => .ok ()) (.ok ()) rarCtx =
      .error "invalid source archive format: rar" ∧
    sourceRun (fun _ => .ok "blah-2.1.0") (fun _ => .ok ()) (.ok ()) tgzCtx =
      .ok tgzCtxDone := by
  constructor
  · exact (source_run_format_gate (fun _ => .ok "blah-2.1.0") (fun _ => .ok ())
      (.ok ()) rarCtx).1 (by decide)
  · have h := (source_run_format_gate (fun _ => .ok "blah-2.1.0") (fun _ => .ok ())
      (.ok ()) tgzCtx).2 "blah-2.1.0" (by simp [tgzCtx]) rfl rfl rfl rfl
    rw [h]
    rfl


/-- Any over a mapped list tests the composite predicate. -/
theorem any_over_map {α β : Type} (f : α → β) (p : β → Bool) (l : List α) :
    (l.map f).any p = l.any (fun a => p (f a)) := by
  induction l with
  | nil => rfl
  | cons a l ih => simp [List.any, ih]

/-- C2: when some but not all targets are skipped and every remaining
target's transfers all succeed, the stage call returns an error the
dedicated predicate classifies as skip, and every request of every
non-skipped target was in fact transferred. -/
theorem stage_skip_aggregation (evalBool : String → Except String Bool)
    (resolveTmpl : String → Artifact → Except String String)
    (respOk : Request → Bool) (env : Env) (kind : String)
    (registry : List Artifact) (bodyOf fileOf : Artifact → List Nat)
    (uploads : List Upload)
    (hnofail : ∀ u ∈ uploads,
      (processTarget evalBool resolveTmpl respOk env kind registry bodyOf fileOf
        u).isFailed = false)
    (hskip : ∃ u ∈ uploads,
      processTarget evalBool resolveTmpl respOk env kind registry bodyOf fileOf
        u = .skipped) :
    (∃ e, (uploadStage evalBool resolveTmpl respOk env kind registry bodyOf
        fileOf uploads).2 = some e ∧ e.isSkip = true) ∧
    (∀ u ∈ uploads, ∀ rs,
      processTarget evalBool resolveTmpl respOk env kind registry bodyOf fileOf
        u = .done rs →
      ∀ r ∈ rs, r ∈ (uploadStage evalBool resolveTmpl respOk env kind registry
        bodyOf fileOf uploads).1) := by
  constructor
  · have hfail : (uploads.map (processTarget evalBool resolveTmpl respOk env
        kind registry bodyOf fileOf)).any TargetResult.isFailed = false := by
      rw [any_over_map, List.any_eq_false]
      intro u hu
      simp [hnofail u hu]
    have hsk : (uploads.map (processTarget evalBool resolveTmpl respOk env
        kind registry bodyOf fileOf)).any TargetResult.isSkipped = true := by
      rw [any_over_map, List.any_eq_true]
      obtain ⟨u, hu, hequ⟩ := hskip
      exact ⟨u, hu, by simp [hequ, TargetResult.isSkipped]⟩
    refine ⟨.skip "some uploads were skipped", ?_, rfl⟩
    simp only [uploadStage, hfail, hsk]
    simp
  · intro u hu rs hdone r hr
    simp only [uploadStage]
    rw [List.mem_flatMap]
    refine ⟨processTarget evalBool resolveTmpl respOk env kind registry bodyOf
      fileOf u, ?_, ?_⟩
    · exact List.mem_map.mpr ⟨u, hu, rfl⟩
    · rw [hdone]
      exact hr

/-- Witness for the stage aggregation at the TestManyUploads
configuration: the stage reports a skip-classified error and still
transferred the real target's upload. -/
theorem stage_skip_aggregation_witness :
    (∃ e, (uploadStage manyEvalBool manyResolve (fun _ => true) [("FOO", "1")]
      "test" loneChecksum (fun _ => [97]) (fun _ => [97]) manyUploads).2 =
        some e ∧ e.isSkip = true) ∧
    (uploadStage manyEvalBool manyResolve (fun _ => true) [("FOO", "1")]
      "test" loneChecksum (fun _ => [97]) (fun _ => [97]) manyUploads).1 ≠ [] := by
  constructor
  · exact (stage_skip_aggregation manyEvalBool manyResolve (fun _ => true)
      [("FOO", "1")] "test" loneChecksum (fun _ => [97]) (fun _ => [97])
      manyUploads (by decide) (by decide)).1
  · decide

set_option maxRecDepth 40000 in
/-- C4 counterexample: at the checksumheader test's input the request
body is blah! but the checksum header carries
5e2bf57d3f40c4b6df69daf1936cb766f832374b4fc0259a7cbff06e2f70f269, the
SHA-256 of the artifact's file content lorem ipsum — not the SHA-256 of
the transmitted payload, which is
e37a649e5b4e9dd25672f22470f7ac0e5a902c2e02b54f9adc8ce791383d7514. -/
theorem checksum_header_not_payload_hash :
    chkRequest.body = blahBytes ∧
    chkRequest.headers =
      [("-x-sha256",
        "5e2bf57d3f40c4b6df69daf1936cb766f832374b4fc0259a7cbff06e2f70f269")] ∧
    sha256Hex blahBytes =
      "e37a649e5b4e9dd25672f22470f7ac0e5a902c2e02b54f9adc8ce791383d7514" ∧
    sha256Hex chkRequest.body ≠
      "5e2bf57d3f40c4b6df69daf1936cb766f832374b4fc0259a7cbff06e2f70f269" := by
  have h2 : chkRequest.headers =
      [("-x-sha256",
        "5e2bf57d3f40c4b6df69daf1936cb766f832374b4fc0259a7cbff06e2f70f269")] := by
    rfl
  have h3 : sha256Hex blahBytes =
      "e37a649e5b4e9dd25672f22470f7ac0e5a902c2e02b54f9adc8ce791383d7514" := by
    rfl
  refine ⟨rfl, h2, h3, ?_⟩
  have hb : chkRequest.body = blahBytes := rfl
  rw [hb, h3]
  decide

set_option maxRecDepth 40000 in
/-- C4 (amended): a configured checksum-header name makes the built
request carry that header with the SHA-256 (lowercase hex) of the
artifact's file content — not of the transmitted payload — and the file
content lorem ipsum of the checksumheader test hashes to
5e2bf57d3f40c4b6df69daf1936cb766f832374b4fc0259a7cbff06e2f70f269. -/
theorem checksum_header_is_file_hash (env : Env) (kind : String) (u : Upload)
    (tgt : String) (a : Artifact) (body fileContent : List Nat)
    (hs : List (String × String)) (h : u.checksumHeader ≠ "") :
    (u.checksumHeader, sha256Hex fileContent) ∈
      (buildRequest env kind u tgt a body fileContent hs).headers ∧
    sha256Hex loremBytes =
      "5e2bf57d3f40c4b6df69daf1936cb766f832374b4fc0259a7cbff06e2f70f269" := by
  constructor
  · simp [buildRequest, h]
  · rfl

/-- Witness for the checksum header at the checksumheader test's
request. -/
theorem checksum_header_is_file_hash_witness :
    ("-x-sha256", sha256Hex loremBytes) ∈ chkRequest.headers ∧
    sha256Hex loremBytes =
      "5e2bf57d3f40c4b6df69daf1936cb766f832374b4fc0259a7cbff06e2f70f269" :=
  checksum_header_is_file_hash [("TEST_A_SECRET", "x"), ("TEST_A_USERNAME", "u2")]
    "test" chkTarget "http://h/v/" ubiArtifact blahBytes loremBytes []
    (by decide)

end Goreleaser
